import Mathlib

/-!
# Budgeteer accounting core — shallow embedding

A shallow embedding of `src/budgeteer/models.py`: the four persistent entity
kinds (Category, Account, Transaction, Sheet with child SheetEntry), the
validation gate (`Transaction.clean`, `SheetEntry.clean`), the two creation
hooks (`initialize_sheet_with_entries`,
`create_sheet_entries_on_category_creation`) and the accounting engine
(`Account.total`, `Sheet.transactions`, `Sheet.previous`, `Sheet.available`).

Conventions of the embedding:
* `decimal(12,2)` money values are modelled as `Int` (fixed-point, the unit is
  irrelevant to every property proved here: only `+`, `-`, `>` 0 and `=` occur).
* Django model instances carry `pk : Option Nat` (`none` before the first
  save); foreign keys are stored as the referenced row's primary key, matching
  Django's `__eq__`/filter semantics which compare by pk.
* The store is a `DB` structure of lists of committed rows.
* A computation that raises in Python (Django's `Sum` aggregate returning
  `None` on an empty queryset makes `available` subtract `None`) is modelled
  with `Option`: `none` is "no value / raises".
-/

namespace Budgeteer

/-- A calendar date, as Python's `datetime.date`. Ordering is lexicographic
on (year, month, day), which agrees with `datetime.date` ordering. -/
structure Date where
  year : Nat
  month : Nat
  day : Nat
deriving DecidableEq, Repr

/-- `datetime.date` comparison `a <= b`, lexicographic on (year, month, day). -/
def Date.le (a b : Date) : Bool :=
  a.year < b.year ∨ (a.year = b.year ∧
    (a.month < b.month ∨ (a.month = b.month ∧ a.day ≤ b.day)))

/-- Gregorian leap year test, as Python's `calendar.isleap`. -/
def isLeapYear (y : Nat) : Bool :=
  y % 4 = 0 ∧ (y % 100 ≠ 0 ∨ y % 400 = 0)

/-- Number of days of month `m` of year `y`, as
`calendar.monthrange(y, m)[1]`. `Sheet.month` is schema-constrained to
`[1, 12]`, so only those twelve cases are ever reached by the model code. -/
def daysInMonth (y m : Nat) : Nat :=
  if m = 2 then (if isLeapYear y then 29 else 28)
  else if m = 4 ∨ m = 6 ∨ m = 9 ∨ m = 11 then 30
  else 31

/-- `Category` — `models.py` lines 16-26: `name` only (plus implicit pk). -/
structure Category where
  id : Nat
  name : String
deriving DecidableEq, Repr

/-- `Account` — `models.py` lines 148-153: `name`, `balance`. -/
structure Account where
  id : Nat
  name : String
  balance : Int
deriving DecidableEq, Repr

/-- `Transaction` — `models.py` lines 175-186: `partner`, `date`, `value`,
`category` (FK), `account` (FK), `locked`. `pk` is `none` for an unsaved
instance. -/
structure Transaction where
  pk : Option Nat
  partner : String
  date : Date
  value : Int
  category : Nat
  account : Nat
  locked : Bool
deriving DecidableEq, Repr

/-- `Sheet` — `models.py` lines 28-42: `month`, `year`, `carryover`
(nullable). `(month, year)` is unique by the store's `unique_together`. -/
structure Sheet where
  id : Nat
  month : Nat
  year : Nat
  carryover : Option Int
deriving DecidableEq, Repr

/-- `SheetEntry` — `models.py` lines 107-122: `sheet` (FK), `category` (FK),
`value`, `locked`. `pk` is `none` for an unsaved instance. -/
structure SheetEntry where
  pk : Option Nat
  sheet : Nat
  category : Nat
  value : Int
  locked : Bool
deriving DecidableEq, Repr

/-- The entity store: the committed rows of the four kinds (and SheetEntry). -/
structure DB where
  categories : List Category
  accounts : List Account
  transactions : List Transaction
  sheets : List Sheet
  entries : List SheetEntry
deriving DecidableEq, Repr

/-- `Transaction.objects.get(pk=pk)` — pk is the primary key, so at most one
row matches; `find?` returns it (or `none` for `DoesNotExist`). -/
def DB.getTransaction (db : DB) (pk : Nat) : Option Transaction :=
  db.transactions.find? (fun t => t.pk == some pk)

/-- `SheetEntry.objects.get(pk=pk)`. -/
def DB.getEntry (db : DB) (pk : Nat) : Option SheetEntry :=
  db.entries.find? (fun e => e.pk == some pk)

/-- `Transaction.clean` — `models.py` lines 188-197. If the instance has a
pk and its *proposed* `locked` flag is true, fetch the committed state and
reject (`ValidationError`) on the first lockable field
(`partner, date, value, category, account`, in this order) whose committed
and proposed values differ. A pk with no committed row is Django's
`DoesNotExist`, also a failure. -/
def Transaction.clean (db : DB) (t : Transaction) : Except String Unit :=
  match t.pk with
  | none => .ok ()
  | some pk =>
    if t.locked then
      match db.getTransaction pk with
      | none => .error "Transaction matching query does not exist."
      | some prev =>
        if prev.partner ≠ t.partner then
          .error "Field partner was changed on locked transaction."
        else if prev.date ≠ t.date then
          .error "Field date was changed on locked transaction."
        else if prev.value ≠ t.value then
          .error "Field value was changed on locked transaction."
        else if prev.category ≠ t.category then
          .error "Field category was changed on locked transaction."
        else if prev.account ≠ t.account then
          .error "Field account was changed on locked transaction."
        else .ok ()
    else .ok ()

/-- `SheetEntry.clean` — `models.py` lines 124-133. Same gate over the
lockable fields `sheet, category, value` (in this order). -/
def SheetEntry.clean (db : DB) (e : SheetEntry) : Except String Unit :=
  match e.pk with
  | none => .ok ()
  | some pk =>
    if e.locked then
      match db.getEntry pk with
      | none => .error "SheetEntry matching query does not exist."
      | some prev =>
        if prev.sheet ≠ e.sheet then
          .error "Field sheet was changed on locked sheet entry."
        else if prev.category ≠ e.category then
          .error "Field category was changed on locked sheet entry."
        else if prev.value ≠ e.value then
          .error "Field value was changed on locked sheet entry."
        else .ok ()
    else .ok ()

/-- The two states agree on every lockable field of a Transaction
(`LOCKABLE_FIELDS = [partner, date, value, category, account]`). -/
def Transaction.lockableEq (a b : Transaction) : Prop :=
  a.partner = b.partner ∧ a.date = b.date ∧ a.value = b.value ∧
    a.category = b.category ∧ a.account = b.account

instance (a b : Transaction) : Decidable (Transaction.lockableEq a b) := by
  unfold Transaction.lockableEq; infer_instance

/-- The two states agree on every lockable field of a SheetEntry
(`LOCKABLE_FIELDS = [sheet, category, value]`). -/
def SheetEntry.lockableEq (a b : SheetEntry) : Prop :=
  a.sheet = b.sheet ∧ a.category = b.category ∧ a.value = b.value

instance (a b : SheetEntry) : Decidable (SheetEntry.lockableEq a b) := by
  unfold SheetEntry.lockableEq; infer_instance

/-! ## Accounting engine -/

/-- `Sheet.transactions` — `models.py` lines 44-52: the transactions whose
date lies between the first and the last day of the sheet's month,
inclusive. -/
def Sheet.transactionsOf (db : DB) (s : Sheet) : List Transaction :=
  db.transactions.filter (fun t =>
    Date.le ⟨s.year, s.month, 1⟩ t.date ∧
    Date.le t.date ⟨s.year, s.month, daysInMonth s.year s.month⟩)

/-- `Sheet.__get_sum_of_inflows` — `models.py` lines 92-93: Python `sum` of
the positive transaction values (`0` for an empty set). -/
def Sheet.sumOfInflows (db : DB) (s : Sheet) : Int :=
  (((Sheet.transactionsOf db s).filter (fun t => 0 < t.value)).map
    (fun t => t.value)).sum

/-- `Sheet.__get_sum_of_budgets` — `models.py` lines 95-96: the Django
`Sum('value')` aggregate over the sheet's entries. Django returns `None`
when the aggregated queryset is empty, so the result is an `Option`. -/
def Sheet.sumOfBudgets (db : DB) (s : Sheet) : Option Int :=
  match db.entries.filter (fun e => e.sheet == s.id) with
  | [] => none
  | l => some ((l.map (fun e => e.value)).sum)

/-- `Sheet.previous` — `models.py` lines 72-84: the stored sheet at
`month - 1` (wrapping to month 12 of `year - 1` when `month == 1`, which is
Python's `self.month > 1` test), or `none` when absent. The previous year is
computed in `Int` because Python's `self.year - 1` can be negative, in which
case no stored sheet (whose `year` is a nonnegative field) can match.
`(month, year)` is unique by the store's `unique_together`, so at most one
row matches and `find?` returns it (Django's `.get`). -/
def Sheet.previousOf (db : DB) (s : Sheet) : Option Sheet :=
  let pm : Nat := if s.month > 1 then s.month - 1 else 12
  let py : Int := if s.month > 1 then (s.year : Int) else (s.year : Int) - 1
  db.sheets.find? (fun p => p.month == pm && ((p.year : Int) == py))

/-- A sheet found by `Sheet.previousOf` is strictly earlier in the
`13 * year + month` measure; this bounds the recursion of `available`. -/
theorem previousOf_measure_lt (db : DB) (s p : Sheet)
    (h : Sheet.previousOf db s = some p) :
    13 * p.year + p.month < 13 * s.year + s.month := by
  unfold Sheet.previousOf at h
  have hp := List.find?_some h
  by_cases hm : s.month > 1 <;> simp [hm] at hp <;> omega

/-- `Sheet.available` — `models.py` lines 54-70.
1. a non-null `carryover` is returned verbatim;
2. else, when `previous` exists, `inflows - budgets + previous.available`;
3. else `inflows - budgets`.
The budget sum is `none` for a sheet without entries, and Python then raises
`TypeError` on the subtraction before the recursive call, so the whole
computation is `none` as soon as any sheet of the chain contributes `none`. -/
def Sheet.availableOf (db : DB) (s : Sheet) : Option Int :=
  match s.carryover with
  | some c => some c
  | none =>
    match hp : Sheet.previousOf db s with
    | some p =>
      (Sheet.sumOfBudgets db s).bind (fun b =>
        (Sheet.availableOf db p).map (fun pa =>
          Sheet.sumOfInflows db s - b + pa))
    | none =>
      (Sheet.sumOfBudgets db s).map (fun b => Sheet.sumOfInflows db s - b)
termination_by 13 * s.year + s.month
decreasing_by exact previousOf_measure_lt db s p hp

/-- `Account.__get_transaction_total` — `models.py` lines 167-173: the
`Sum('value')` aggregate over this account's unlocked transactions, with
Django's `None`-on-empty result replaced by `0`. -/
def Account.transactionTotal (db : DB) (a : Account) : Int :=
  match (db.transactions.filter (fun t => t.account == a.id)).filter
      (fun t => t.locked == false) with
  | [] => 0
  | l => (l.map (fun t => t.value)).sum

/-- `Account.total` — `models.py` lines 155-162: starting balance plus the
unlocked-transaction total. -/
def Account.total (db : DB) (a : Account) : Int :=
  a.balance + Account.transactionTotal db a

/-! ## Lifecycle hooks -/

/-- `initialize_sheet_with_entries` — `models.py` lines 98-105: on a
`post_save` of a Sheet with `created` and not `raw`, one zero-valued entry
per existing category is created for the new sheet. The function returns the
list of entries the hook saves (in iteration order); it saves nothing
otherwise. -/
def initialize_sheet_with_entries (db : DB) (inst : Sheet)
    (created raw : Bool) : List SheetEntry :=
  if created ∧ ¬raw then
    db.categories.map (fun c =>
      { pk := none, sheet := inst.id, category := c.id,
        value := 0, locked := false })
  else []

/-- `create_sheet_entries_on_category_creation` — `models.py` lines
138-146: on a `post_save` of a Category with `created` and not `raw`, one
zero-valued entry per sheet with null carryover
(`filter(carryover__isnull=True)`) is created for the new category. -/
def create_sheet_entries_on_category_creation (db : DB) (inst : Category)
    (created raw : Bool) : List SheetEntry :=
  if created ∧ ¬raw then
    (db.sheets.filter (fun s => s.carryover == none)).map (fun s =>
      { pk := none, sheet := s.id, category := inst.id,
        value := 0, locked := false })
  else []

/-! ## Field-difference predicates (which lockable field an error names) -/

/-- `f` names a lockable Transaction field whose values differ between the
two states. -/
def Transaction.fieldDiffers (f : String) (a b : Transaction) : Prop :=
  (f = "partner" ∧ a.partner ≠ b.partner) ∨
  (f = "date" ∧ a.date ≠ b.date) ∨
  (f = "value" ∧ a.value ≠ b.value) ∨
  (f = "category" ∧ a.category ≠ b.category) ∨
  (f = "account" ∧ a.account ≠ b.account)

/-- `f` names a lockable SheetEntry field whose values differ between the
two states. -/
def SheetEntry.fieldDiffers (f : String) (a b : SheetEntry) : Prop :=
  (f = "sheet" ∧ a.sheet ≠ b.sheet) ∨
  (f = "category" ∧ a.category ≠ b.category) ∨
  (f = "value" ∧ a.value ≠ b.value)

/-! ## Concrete fixtures

Small concrete stores used by the closed (counterexample and witness)
theorems below. Money values are fixed-point: `10000` is `100.00`. -/

/-- A committed, locked transaction (pk 1). -/
def lockedTx : Transaction :=
  { pk := some 1, partner := "Alice", date := ⟨2020, 1, 15⟩, value := 5000,
    category := 1, account := 1, locked := true }

/-- A proposed update of `lockedTx` that clears `locked` and changes the
lockable field `partner`. -/
def unlockEditTx : Transaction :=
  { pk := some 1, partner := "Bob", date := ⟨2020, 1, 15⟩, value := 5000,
    category := 1, account := 1, locked := false }

/-- A committed, locked sheet entry (pk 1). -/
def lockedEntry : SheetEntry :=
  { pk := some 1, sheet := 1, category := 1, value := 3000, locked := true }

/-- A proposed update of `lockedEntry` that clears `locked` and changes the
lockable field `value`. -/
def unlockEditEntry : SheetEntry :=
  { pk := some 1, sheet := 1, category := 1, value := 4000, locked := false }

/-- Store holding the committed `lockedTx` and `lockedEntry`. -/
def dbLocked : DB :=
  { categories := [], accounts := [], transactions := [lockedTx],
    sheets := [], entries := [lockedEntry] }

/-- A committed, unlocked transaction (pk 2). -/
def openTx : Transaction :=
  { pk := some 2, partner := "Carol", date := ⟨2020, 3, 2⟩, value := 2000,
    category := 1, account := 1, locked := false }

/-- A proposed update of `openTx` that sets `locked` and also changes the
lockable field `value`. -/
def lockEditTx : Transaction :=
  { pk := some 2, partner := "Carol", date := ⟨2020, 3, 2⟩, value := 2500,
    category := 1, account := 1, locked := true }

/-- A proposed update of `openTx` that sets `locked` and changes nothing
else. -/
def lockKeepTx : Transaction :=
  { pk := some 2, partner := "Carol", date := ⟨2020, 3, 2⟩, value := 2000,
    category := 1, account := 1, locked := true }

/-- A committed, unlocked sheet entry (pk 2). -/
def openEntry : SheetEntry :=
  { pk := some 2, sheet := 1, category := 1, value := 1000, locked := false }

/-- A proposed update of `openEntry` that sets `locked` and changes nothing
else. -/
def lockKeepEntry : SheetEntry :=
  { pk := some 2, sheet := 1, category := 1, value := 1000, locked := true }

/-- Store holding the committed `openTx` and `openEntry`. -/
def dbOpen : DB :=
  { categories := [], accounts := [], transactions := [openTx],
    sheets := [], entries := [openEntry] }

/-- An open sheet (null carryover) with no predecessor and no entries. -/
def zeroEntrySheet : Sheet := { id := 1, month := 1, year := 2020, carryover := none }

/-- An in-month inflow of 50.00 for `zeroEntrySheet`. -/
def inflowTx : Transaction :=
  { pk := some 3, partner := "Dora", date := ⟨2020, 1, 15⟩, value := 5000,
    category := 1, account := 1, locked := false }

/-- Store with `zeroEntrySheet`, one inflow and no sheet entries. -/
def dbZeroEntry : DB :=
  { categories := [], accounts := [], transactions := [inflowTx],
    sheets := [zeroEntrySheet], entries := [] }

/-- A closed sheet: 01/2020 with stored carryover 7.00. -/
def closedSheet : Sheet := { id := 1, month := 1, year := 2020, carryover := some 700 }

/-- An open sheet: 02/2020, successor of `closedSheet`. -/
def openSheet2 : Sheet := { id := 2, month := 2, year := 2020, carryover := none }

/-- A budget entry of 30.00 on `openSheet2`. -/
def entry30 : SheetEntry :=
  { pk := some 10, sheet := 2, category := 1, value := 3000, locked := false }

/-- An inflow of 100.00 dated inside 02/2020. -/
def tx100 : Transaction :=
  { pk := some 4, partner := "Emil", date := ⟨2020, 2, 10⟩, value := 10000,
    category := 1, account := 1, locked := false }

/-- Store with the two-sheet chain `closedSheet` ← `openSheet2`. -/
def dbChain : DB :=
  { categories := [], accounts := [], transactions := [tx100],
    sheets := [closedSheet, openSheet2], entries := [entry30] }

/-- The empty store. -/
def dbEmpty : DB :=
  { categories := [], accounts := [], transactions := [], sheets := [],
    entries := [] }

/-- An account with opening balance 100.00. -/
def acct : Account := { id := 1, name := "Checking", balance := 10000 }

/-- An unlocked outflow of 25.50 on `acct`. -/
def txOut : Transaction :=
  { pk := some 5, partner := "Shop", date := ⟨2021, 6, 1⟩, value := -2550,
    category := 1, account := 1, locked := false }

/-- A locked inflow of 10.00 on `acct` (must not count). -/
def txLockedIn : Transaction :=
  { pk := some 6, partner := "Job", date := ⟨2021, 6, 2⟩, value := 1000,
    category := 1, account := 1, locked := true }

/-- An unlocked transaction on another account (must not count). -/
def txOther : Transaction :=
  { pk := some 7, partner := "Else", date := ⟨2021, 6, 3⟩, value := 99999,
    category := 1, account := 2, locked := false }

/-- Store for the account-total scenario. -/
def dbAcct : DB :=
  { categories := [], accounts := [acct],
    transactions := [txOut, txLockedIn, txOther], sheets := [], entries := [] }

/-- Store where every transaction of `acct` is locked. -/
def dbAcctLocked : DB :=
  { categories := [], accounts := [acct],
    transactions := [txLockedIn, txOther], sheets := [], entries := [] }

/-- Two categories for the sheet-creation hook witness. -/
def catA : Category := { id := 1, name := "Food" }

/-- Second category for the sheet-creation hook witness. -/
def catB : Category := { id := 2, name := "Rent" }

/-- Store with two categories and nothing else. -/
def dbCats : DB :=
  { categories := [catA, catB], accounts := [], transactions := [],
    sheets := [], entries := [] }

/-- A freshly created sheet (id 10) for the sheet-creation hook witness. -/
def newSheet : Sheet := { id := 10, month := 4, year := 2021, carryover := none }

/-- A freshly created category (id 9) for the category-creation hook
witness. -/
def newCat : Category := { id := 9, name := "Travel" }

/-! ## Helper lemmas -/

/-- A closed sheet's `available` is its stored carryover. -/
theorem availableOf_carryover (db : DB) (s : Sheet) (c : Int)
    (h : s.carryover = some c) : Sheet.availableOf db s = some c := by
  rw [Sheet.availableOf, h]

/-- Unfolding of `available` for an open sheet with a predecessor. -/
theorem availableOf_open_prev (db : DB) (s p : Sheet)
    (hco : s.carryover = none) (hp : Sheet.previousOf db s = some p) :
    Sheet.availableOf db s =
      (Sheet.sumOfBudgets db s).bind (fun b =>
        (Sheet.availableOf db p).map (fun pa =>
          Sheet.sumOfInflows db s - b + pa)) := by
  rw [Sheet.availableOf, hco]
  split
  · rename_i q hq; simp at hq
  · split
    · rename_i p' hp'
      rw [hp] at hp'
      injection hp' with h
      rw [h]
    · rename_i hp'; rw [hp] at hp'; cases hp'

/-- Unfolding of `available` for an open sheet without predecessor. -/
theorem availableOf_open_noprev (db : DB) (s : Sheet)
    (hco : s.carryover = none) (hp : Sheet.previousOf db s = none) :
    Sheet.availableOf db s =
      (Sheet.sumOfBudgets db s).map (fun b => Sheet.sumOfInflows db s - b) := by
  rw [Sheet.availableOf, hco]
  split
  · rename_i q hq; simp at hq
  · split
    · rename_i p' hp'; rw [hp] at hp'; cases hp'
    · rfl

/-- The sheet found by `previous` is at month − 1, wrapping to month 12 of
year − 1 when the month is 1 (the code tests `month > 1`). -/
theorem previousOf_month_year (db : DB) (s p : Sheet)
    (h : Sheet.previousOf db s = some p) :
    p.month = (if s.month > 1 then s.month - 1 else 12) ∧
    (p.year : Int) = (if s.month > 1 then (s.year : Int) else (s.year : Int) - 1) := by
  unfold Sheet.previousOf at h
  have hp := List.find?_some h
  by_cases hm : s.month > 1 <;> simp [hm] at hp ⊢ <;> omega

/-- The gate never fires when the proposed transaction is unlocked. -/
theorem txClean_ok_of_not_locked (db : DB) (t : Transaction)
    (hl : t.locked = false) : Transaction.clean db t = .ok () := by
  cases h : t.pk <;> simp [Transaction.clean, h, hl]

/-- The gate accepts a locked proposed transaction that agrees with the
committed state on every lockable field. -/
theorem txClean_ok_of_lockableEq (db : DB) (pk : Nat)
    (prev t : Transaction) (hpk : t.pk = some pk)
    (hget : db.getTransaction pk = some prev)
    (heq : Transaction.lockableEq prev t) : Transaction.clean db t = .ok () := by
  obtain ⟨e1, e2, e3, e4, e5⟩ := heq
  cases hl : t.locked <;>
    simp [Transaction.clean, hpk, hget, hl, e1, e2, e3, e4, e5]

/-- The gate rejects a locked proposed transaction that differs from the
committed state on some lockable field, naming a differing field. -/
theorem txClean_error_of_diff (db : DB) (pk : Nat)
    (prev t : Transaction) (hpk : t.pk = some pk) (hl : t.locked = true)
    (hget : db.getTransaction pk = some prev)
    (hne : ¬ Transaction.lockableEq prev t) :
    ∃ f, Transaction.clean db t =
        .error ("Field " ++ f ++ " was changed on locked transaction.") ∧
      Transaction.fieldDiffers f prev t := by
  by_cases h1 : prev.partner = t.partner
  case neg =>
    exact ⟨"partner", by simp [Transaction.clean, hpk, hl, hget, h1],
      Or.inl ⟨rfl, h1⟩⟩
  by_cases h2 : prev.date = t.date
  case neg =>
    exact ⟨"date", by simp [Transaction.clean, hpk, hl, hget, h1, h2],
      Or.inr (Or.inl ⟨rfl, h2⟩)⟩
  by_cases h3 : prev.value = t.value
  case neg =>
    exact ⟨"value", by simp [Transaction.clean, hpk, hl, hget, h1, h2, h3],
      Or.inr (Or.inr (Or.inl ⟨rfl, h3⟩))⟩
  by_cases h4 : prev.category = t.category
  case neg =>
    exact ⟨"category",
      by simp [Transaction.clean, hpk, hl, hget, h1, h2, h3, h4],
      Or.inr (Or.inr (Or.inr (Or.inl ⟨rfl, h4⟩)))⟩
  by_cases h5 : prev.account = t.account
  case neg =>
    exact ⟨"account",
      by simp [Transaction.clean, hpk, hl, hget, h1, h2, h3, h4, h5],
      Or.inr (Or.inr (Or.inr (Or.inr ⟨rfl, h5⟩)))⟩
  exact absurd ⟨h1, h2, h3, h4, h5⟩ hne

/-- The gate never fires when the proposed sheet entry is unlocked. -/
theorem entryClean_ok_of_not_locked (db : DB) (e : SheetEntry)
    (hl : e.locked = false) : SheetEntry.clean db e = .ok () := by
  cases h : e.pk <;> simp [SheetEntry.clean, h, hl]

/-- The gate accepts a locked proposed sheet entry that agrees with the
committed state on every lockable field. -/
theorem entryClean_ok_of_lockableEq (db : DB) (pk : Nat)
    (prev e : SheetEntry) (hpk : e.pk = some pk)
    (hget : db.getEntry pk = some prev)
    (heq : SheetEntry.lockableEq prev e) : SheetEntry.clean db e = .ok () := by
  obtain ⟨e1, e2, e3⟩ := heq
  cases hl : e.locked <;> simp [SheetEntry.clean, hpk, hget, hl, e1, e2, e3]

/-- The gate rejects a locked proposed sheet entry that differs from the
committed state on some lockable field, naming a differing field. -/
theorem entryClean_error_of_diff (db : DB) (pk : Nat)
    (prev e : SheetEntry) (hpk : e.pk = some pk) (hl : e.locked = true)
    (hget : db.getEntry pk = some prev)
    (hne : ¬ SheetEntry.lockableEq prev e) :
    ∃ f, SheetEntry.clean db e =
        .error ("Field " ++ f ++ " was changed on locked sheet entry.") ∧
      SheetEntry.fieldDiffers f prev e := by
  by_cases h1 : prev.sheet = e.sheet
  case neg =>
    exact ⟨"sheet", by simp [SheetEntry.clean, hpk, hl, hget, h1],
      Or.inl ⟨rfl, h1⟩⟩
  by_cases h2 : prev.category = e.category
  case neg =>
    exact ⟨"category", by simp [SheetEntry.clean, hpk, hl, hget, h1, h2],
      Or.inr (Or.inl ⟨rfl, h2⟩)⟩
  by_cases h3 : prev.value = e.value
  case neg =>
    exact ⟨"value", by simp [SheetEntry.clean, hpk, hl, hget, h1, h2, h3],
      Or.inr (Or.inr ⟨rfl, h3⟩)⟩
  exact absurd ⟨h1, h2, h3⟩ hne

/-- The transaction total of the code (Django aggregate with `None`
replaced by `0`) is the plain sum over the filtered list. -/
theorem Account.transactionTotal_eq_filter_sum (db : DB) (a : Account) :
    Account.transactionTotal db a =
      (((db.transactions.filter (fun t => t.account == a.id)).filter
        (fun t => t.locked == false)).map (fun t => t.value)).sum := by
  unfold Account.transactionTotal
  split
  · rename_i heq; rw [heq]; rfl
  · rfl

/-- Summing the values of an account's unlocked transactions (a double
filter) equals summing an if-indicator over the whole transaction list. -/
theorem filter_map_value_sum (l : List Transaction) (aid : Nat) :
    (((l.filter (fun t => t.account == aid)).filter
      (fun t => t.locked == false)).map (fun t => t.value)).sum =
    (l.map (fun t =>
      if t.account = aid ∧ t.locked = false then t.value else 0)).sum := by
  induction l with
  | nil => rfl
  | cons h tl ih =>
    by_cases h1 : h.account = aid <;> by_cases h2 : h.locked = false <;>
      simp_all [List.filter_cons]

/-- The account's transaction total as an indicator sum over all stored
transactions. -/
theorem Account.transactionTotal_eq_indicator (db : DB) (a : Account) :
    Account.transactionTotal db a =
      (db.transactions.map (fun t =>
        if t.account = a.id ∧ t.locked = false then t.value else 0)).sum := by
  rw [Account.transactionTotal_eq_filter_sum, filter_map_value_sum]

/-! ## Claim theorems -/

/-- C1 (counterexample): the claim as stated is false. `lockedTx` is a
committed transaction with `locked = true`, and `unlockEditTx` is a proposed
update of it that changes the lockable field `partner` — yet the validation
gate accepts it, because the update also clears the `locked` flag and the
gate only fires on the proposed flag. -/
theorem C1_counterexample :
    lockedTx.locked = true ∧
    dbLocked.getTransaction 1 = some lockedTx ∧
    unlockEditTx.pk = some 1 ∧
    unlockEditTx.partner ≠ lockedTx.partner ∧
    Transaction.clean dbLocked unlockEditTx = .ok () :=
  ⟨rfl, rfl, rfl, by decide, rfl⟩

/-- C1 (amended): for a committed Transaction with `locked = true`, any
update that keeps `locked = true` and changes one of `partner`, `date`,
`value`, `category`, `account` is rejected with a `LockedFieldMutation`
error naming a changed field, and such an update leaving all those fields
unchanged succeeds; same for SheetEntry over `sheet`, `category`, `value`. -/
theorem C1_locked_field_immutability :
    (∀ (db : DB) (pk : Nat) (prev t : Transaction),
      db.getTransaction pk = some prev → t.pk = some pk →
      prev.locked = true → t.locked = true →
      ((Transaction.lockableEq prev t → Transaction.clean db t = .ok ()) ∧
       (¬ Transaction.lockableEq prev t →
         ∃ f, Transaction.clean db t =
             .error ("Field " ++ f ++ " was changed on locked transaction.") ∧
           Transaction.fieldDiffers f prev t))) ∧
    (∀ (db : DB) (pk : Nat) (prev e : SheetEntry),
      db.getEntry pk = some prev → e.pk = some pk →
      prev.locked = true → e.locked = true →
      ((SheetEntry.lockableEq prev e → SheetEntry.clean db e = .ok ()) ∧
       (¬ SheetEntry.lockableEq prev e →
         ∃ f, SheetEntry.clean db e =
             .error ("Field " ++ f ++ " was changed on locked sheet entry.") ∧
           SheetEntry.fieldDiffers f prev e))) := by
  constructor
  · intro db pk prev t hget hpk _hprev hl
    exact ⟨fun heq => txClean_ok_of_lockableEq db pk prev t hpk hget heq,
           fun hne => txClean_error_of_diff db pk prev t hpk hl hget hne⟩
  · intro db pk prev e hget hpk _hprev hl
    exact ⟨fun heq => entryClean_ok_of_lockableEq db pk prev e hpk hget heq,
           fun hne => entryClean_error_of_diff db pk prev e hpk hl hget hne⟩

/-- C1 (witness): the amended theorem applied to the committed `lockedTx`
and `lockedEntry`, re-saved unchanged: the gate accepts. -/
theorem C1_locked_field_immutability_witness :
    Transaction.clean dbLocked lockedTx = .ok () ∧
    SheetEntry.clean dbLocked lockedEntry = .ok () :=
  ⟨(C1_locked_field_immutability.1 dbLocked 1 lockedTx lockedTx
      rfl rfl rfl rfl).1 ⟨rfl, rfl, rfl, rfl, rfl⟩,
   (C1_locked_field_immutability.2 dbLocked 1 lockedEntry lockedEntry
      rfl rfl rfl rfl).1 ⟨rfl, rfl, rfl⟩⟩

/-- C2 (counterexample): the claim as stated is false. `openTx` is a
committed transaction with `locked = false`; the proposed `lockEditTx` both
sets `locked = true` and changes the lockable field `value`, and the gate
rejects it — the check keys on the proposed `locked` flag, so it does fire. -/
theorem C2_counterexample :
    openTx.locked = false ∧
    dbOpen.getTransaction 2 = some openTx ∧
    lockEditTx.pk = some 2 ∧
    lockEditTx.locked = true ∧
    lockEditTx.value ≠ openTx.value ∧
    Transaction.clean dbOpen lockEditTx =
      .error "Field value was changed on locked transaction." :=
  ⟨rfl, rfl, rfl, rfl, by decide, rfl⟩

/-- C2 (amended): for a committed Transaction or SheetEntry with
`locked = false`, a single update that sets `locked = true` is accepted iff
it leaves every lockable field unchanged; if it also changes a lockable
field it is rejected with a `LockedFieldMutation` error naming a changed
field (the gate fires on the proposed `locked` flag, not the committed one). -/
theorem C2_lock_transition :
    (∀ (db : DB) (pk : Nat) (prev t : Transaction),
      db.getTransaction pk = some prev → t.pk = some pk →
      prev.locked = false → t.locked = true →
      ((Transaction.lockableEq prev t → Transaction.clean db t = .ok ()) ∧
       (¬ Transaction.lockableEq prev t →
         ∃ f, Transaction.clean db t =
             .error ("Field " ++ f ++ " was changed on locked transaction.") ∧
           Transaction.fieldDiffers f prev t))) ∧
    (∀ (db : DB) (pk : Nat) (prev e : SheetEntry),
      db.getEntry pk = some prev → e.pk = some pk →
      prev.locked = false → e.locked = true →
      ((SheetEntry.lockableEq prev e → SheetEntry.clean db e = .ok ()) ∧
       (¬ SheetEntry.lockableEq prev e →
         ∃ f, SheetEntry.clean db e =
             .error ("Field " ++ f ++ " was changed on locked sheet entry.") ∧
           SheetEntry.fieldDiffers f prev e))) := by
  constructor
  · intro db pk prev t hget hpk _hprev hl
    exact ⟨fun heq => txClean_ok_of_lockableEq db pk prev t hpk hget heq,
           fun hne => txClean_error_of_diff db pk prev t hpk hl hget hne⟩
  · intro db pk prev e hget hpk _hprev hl
    exact ⟨fun heq => entryClean_ok_of_lockableEq db pk prev e hpk hget heq,
           fun hne => entryClean_error_of_diff db pk prev e hpk hl hget hne⟩

/-- C2 (witness): the amended theorem applied to `openTx`/`openEntry`
updated to `locked = true` with no other change: the gate accepts the
transition. -/
theorem C2_lock_transition_witness :
    Transaction.clean dbOpen lockKeepTx = .ok () ∧
    SheetEntry.clean dbOpen lockKeepEntry = .ok () :=
  ⟨(C2_lock_transition.1 dbOpen 2 openTx lockKeepTx
      rfl rfl rfl rfl).1 ⟨rfl, rfl, rfl, rfl, rfl⟩,
   (C2_lock_transition.2 dbOpen 2 openEntry lockKeepEntry
      rfl rfl rfl rfl).1 ⟨rfl, rfl, rfl⟩⟩

/-- C3 (confirmed): for a committed Transaction or SheetEntry with
`locked = true`, any proposed update with `locked = false` is accepted by
the gate — including one that changes lockable fields — because the check
is conditioned on the proposed `locked` flag being true. -/
theorem C3_unlock_bypass :
    (∀ (db : DB) (pk : Nat) (prev t : Transaction),
      db.getTransaction pk = some prev → t.pk = some pk →
      prev.locked = true → t.locked = false →
      Transaction.clean db t = .ok ()) ∧
    (∀ (db : DB) (pk : Nat) (prev e : SheetEntry),
      db.getEntry pk = some prev → e.pk = some pk →
      prev.locked = true → e.locked = false →
      SheetEntry.clean db e = .ok ()) :=
  ⟨fun db _pk _prev t _hget _hpk _hprev hl =>
      txClean_ok_of_not_locked db t hl,
   fun db _pk _prev e _hget _hpk _hprev hl =>
      entryClean_ok_of_not_locked db e hl⟩

/-- C3 (witness): the theorem applied to the locked `lockedTx` and
`lockedEntry` with proposed unlocking updates that change a lockable field
(`partner` resp. `value`): both are accepted. -/
theorem C3_unlock_bypass_witness :
    unlockEditTx.partner ≠ lockedTx.partner ∧
    Transaction.clean dbLocked unlockEditTx = .ok () ∧
    unlockEditEntry.value ≠ lockedEntry.value ∧
    SheetEntry.clean dbLocked unlockEditEntry = .ok () :=
  ⟨by decide,
   C3_unlock_bypass.1 dbLocked 1 lockedTx unlockEditTx rfl rfl rfl rfl,
   by decide,
   C3_unlock_bypass.2 dbLocked 1 lockedEntry unlockEditEntry rfl rfl rfl rfl⟩

/-- C4 (code evaluated at the failing input): an open sheet with no
predecessor, a positive in-month transaction of 50.00 and zero SheetEntry
rows. The claim says `available = inflow − 0 = 50.00`; the code's budget
aggregate is Django's `Sum` over an empty queryset, which is `None`, and
the subtraction `inflow - None` raises, so `available` produces no value. -/
theorem C4_zero_entry_failure :
    zeroEntrySheet.carryover = none ∧
    Sheet.previousOf dbZeroEntry zeroEntrySheet = none ∧
    Sheet.sumOfInflows dbZeroEntry zeroEntrySheet = 5000 ∧
    Sheet.sumOfBudgets dbZeroEntry zeroEntrySheet = none ∧
    Sheet.availableOf dbZeroEntry zeroEntrySheet = none := by
  refine ⟨rfl, by decide, by decide, rfl, ?_⟩
  rw [availableOf_open_noprev dbZeroEntry zeroEntrySheet rfl (by decide)]
  rfl

/-- C5 (confirmed): for an open sheet (null carryover) whose previous sheet
exists, `available = inflow − budgeted + previous.available`, and the
previous sheet is the stored sheet at month − 1, wrapping to month 12 of
year − 1 when the month is 1. The recursion chains through prior sheets
until one short-circuits on a stored carryover or has no predecessor. -/
theorem C5_available_chained (db : DB) (s p : Sheet) (b pa : Int)
    (hco : s.carryover = none) (hp : Sheet.previousOf db s = some p)
    (hb : Sheet.sumOfBudgets db s = some b)
    (hpa : Sheet.availableOf db p = some pa) :
    Sheet.availableOf db s = some (Sheet.sumOfInflows db s - b + pa) ∧
    p.month = (if s.month > 1 then s.month - 1 else 12) ∧
    (p.year : Int) =
      (if s.month > 1 then (s.year : Int) else (s.year : Int) - 1) := by
  refine ⟨?_, previousOf_month_year db s p hp⟩
  rw [availableOf_open_prev db s p hco hp, hb, hpa]
  rfl

/-- C5 (witness): sheet 02/2020 with inflow 100.00, budget 30.00 and
predecessor 01/2020 closed at carryover 7.00: available is 77.00. -/
theorem C5_available_chained_witness :
    Sheet.availableOf dbChain openSheet2 = some 7700 :=
  ((C5_available_chained dbChain openSheet2 closedSheet 3000 700
      rfl rfl rfl (availableOf_carryover dbChain closedSheet 700 rfl)).1).trans
    (by decide)

/-- C6 (confirmed): a sheet with a non-null carryover has
`available = carryover` in every store state, so later changes to the
month's transactions and entries leave it unchanged. -/
theorem C6_carryover_short_circuit (db db' : DB) (s : Sheet) (c : Int)
    (h : s.carryover = some c) :
    Sheet.availableOf db s = some c ∧
    Sheet.availableOf db' s = Sheet.availableOf db s := by
  have h1 := availableOf_carryover db s c h
  have h2 := availableOf_carryover db' s c h
  exact ⟨h1, h2.trans h1.symm⟩

/-- C6 (witness): the closed sheet 01/2020 yields its carryover 7.00 both
in `dbChain` and in the empty store. -/
theorem C6_carryover_short_circuit_witness :
    Sheet.availableOf dbChain closedSheet = some 700 ∧
    Sheet.availableOf dbEmpty closedSheet =
      Sheet.availableOf dbChain closedSheet :=
  C6_carryover_short_circuit dbChain dbEmpty closedSheet 700 rfl

/-- C7 (confirmed): `total = balance + Σ value` over exactly the unlocked
transactions of this account — locked transactions and transactions of
other accounts contribute the zero summand — and when every transaction of
the account is locked, `total = balance`. -/
theorem C7_account_total (db : DB) (a : Account) :
    Account.total db a =
      a.balance + (db.transactions.map (fun t =>
        if t.account = a.id ∧ t.locked = false then t.value else 0)).sum ∧
    ((∀ t ∈ db.transactions, t.account = a.id → t.locked = true) →
      Account.total db a = a.balance) := by
  have hmain : Account.total db a =
      a.balance + (db.transactions.map (fun t =>
        if t.account = a.id ∧ t.locked = false then t.value else 0)).sum := by
    unfold Account.total
    rw [Account.transactionTotal_eq_indicator]
  refine ⟨hmain, fun hall => ?_⟩
  have hz : (db.transactions.map (fun t =>
      if t.account = a.id ∧ t.locked = false then t.value else 0)).sum = 0 := by
    apply List.sum_eq_zero
    intro x hx
    obtain ⟨t, ht, rfl⟩ := List.mem_map.mp hx
    by_cases hacc : t.account = a.id
    · have hlk := hall t ht hacc
      simp [hacc, hlk]
    · simp [hacc]
  rw [hmain, hz, add_zero]

/-- C7 (witness): balance 100.00, one unlocked transaction of −25.50
counted, a locked +10.00 and a foreign-account transaction excluded:
total is 74.50; with only locked/foreign transactions, total is the
balance 100.00. -/
theorem C7_account_total_witness :
    Account.total dbAcct acct = 7450 ∧
    Account.total dbAcctLocked acct = 10000 :=
  ⟨((C7_account_total dbAcct acct).1).trans (by decide),
   (C7_account_total dbAcctLocked acct).2 (by decide)⟩

/-- C8 (confirmed): when the sheet-creation hook fires (`created`, not
`raw`), it synthesizes exactly one SheetEntry per existing Category — in
particular exactly N rows for N categories — each bound to the new sheet,
with value 0. -/
theorem C8_sheet_creation_entries (db : DB) (s : Sheet) (created raw : Bool)
    (hc : created = true) (hr : raw = false) :
    (initialize_sheet_with_entries db s created raw).length =
      db.categories.length ∧
    (initialize_sheet_with_entries db s created raw).map
      (fun e => e.category) = db.categories.map (fun c => c.id) ∧
    ∀ e ∈ initialize_sheet_with_entries db s created raw,
      e.value = 0 ∧ e.sheet = s.id := by
  subst hc hr
  refine ⟨?_, ?_, ?_⟩
  · simp [initialize_sheet_with_entries]
  · simp [initialize_sheet_with_entries]
  · intro e he
    simp only [initialize_sheet_with_entries, if_pos, List.mem_map] at he
    obtain ⟨c, _, rfl⟩ := (by simpa using he :
      ∃ c ∈ db.categories,
        ({ pk := none, sheet := s.id, category := c.id, value := 0,
           locked := false } : SheetEntry) = e)
    exact ⟨rfl, rfl⟩

/-- C8 (witness): two categories exist; creating a sheet synthesizes two
zero-valued entries, one per category. -/
theorem C8_sheet_creation_entries_witness :
    (initialize_sheet_with_entries dbCats newSheet true false).length = 2 ∧
    (initialize_sheet_with_entries dbCats newSheet true false).map
      (fun e => e.category) = [1, 2] :=
  ⟨((C8_sheet_creation_entries dbCats newSheet true false rfl rfl).1).trans
      (by decide),
   ((C8_sheet_creation_entries dbCats newSheet true false rfl rfl).2.1).trans
      (by decide)⟩

/-- C9 (confirmed): when the category-creation hook fires (`created`, not
`raw`), it synthesizes exactly one zero-valued SheetEntry per sheet with
null carryover, bound to the new category, and none referencing any sheet
with a non-null carryover (sheet ids are store-unique). -/
theorem C9_category_creation_entries (db : DB) (cat : Category)
    (created raw : Bool) (hc : created = true) (hr : raw = false)
    (hids : (db.sheets.map (fun s => s.id)).Nodup) :
    (create_sheet_entries_on_category_creation db cat created raw).map
      (fun e => e.sheet) =
      (db.sheets.filter (fun s => s.carryover == none)).map (fun s => s.id) ∧
    (∀ e ∈ create_sheet_entries_on_category_creation db cat created raw,
      e.value = 0 ∧ e.category = cat.id) ∧
    (∀ s ∈ db.sheets, s.carryover ≠ none →
      ∀ e ∈ create_sheet_entries_on_category_creation db cat created raw,
        e.sheet ≠ s.id) := by
  subst hc hr
  refine ⟨?_, ?_, ?_⟩
  · simp [create_sheet_entries_on_category_creation]
  · intro e he
    simp only [create_sheet_entries_on_category_creation, List.mem_map] at he
    obtain ⟨s', _, rfl⟩ := (by simpa using he :
      ∃ s' ∈ db.sheets.filter (fun s => s.carryover == none),
        ({ pk := none, sheet := s'.id, category := cat.id, value := 0,
           locked := false } : SheetEntry) = e)
    exact ⟨rfl, rfl⟩
  · intro s hs hclosed e he heq
    simp only [create_sheet_entries_on_category_creation, List.mem_map] at he
    obtain ⟨s', hs', rfl⟩ := (by simpa using he :
      ∃ s' ∈ db.sheets.filter (fun q => q.carryover == none),
        ({ pk := none, sheet := s'.id, category := cat.id, value := 0,
           locked := false } : SheetEntry) = e)
    have hmem : s' ∈ db.sheets := (List.mem_filter.mp hs').1
    have hopen : s'.carryover = none := by
      have hq := (List.mem_filter.mp hs').2
      simpa using hq
    have hss : s' = s := List.inj_on_of_nodup_map hids hmem hs heq
    exact hclosed (hss ▸ hopen)

/-- C9 (witness): store with the closed sheet 01/2020 and the open sheet
02/2020 (ids 1, 2): creating a category synthesizes entries exactly for
sheet id 2. -/
theorem C9_category_creation_entries_witness :
    (create_sheet_entries_on_category_creation dbChain newCat true false).map
      (fun e => e.sheet) = [2] :=
  ((C9_category_creation_entries dbChain newCat true false rfl rfl
      (by decide)).1).trans (by decide)

end Budgeteer
